import Mathlib

/-!
Shallow embedding of sslyze's certificate-info console renderer
(`sslyze/plugins/certificate_info/_cli_connector.py`) and of the pickable
certificate record (`sslyze/plugins/utils/certificate.py`), together with
proofs settling the specification claims about them.

The Python renderer builds a list of formatted lines.  The formatting
helpers (`_format_title`, `_format_subtitle`, `_format_field`) live in
`plugin_base.py`, outside the embedded sources, and the spec declares the
concrete text encoding out of scope; lines are therefore kept structured
(`OutLine`) instead of being flattened to strings.  Python exceptions
(`IndexError` from a `[0]` access, the explicit `raise RuntimeError`) are
embedded as an `Except` error channel.
-/

/-- A line of console output: a title, a subtitle, a blank spacer line
(Python appends `""`), or a `_format_field(label, txt)` line. -/
inductive OutLine where
  | title (s : String)
  | subtitle (s : String)
  | blank
  | field (label : String) (txt : String)
deriving DecidableEq, Repr

/-- A Python exception escaping `result_to_console_output`: an
`IndexError` from indexing an empty list, or an explicit `RuntimeError`. -/
inductive RenderErr where
  | indexError
  | runtimeError (msg : String)
deriving DecidableEq, Repr

/-- The dynamic value space of the `verified_chain_has_legacy_symantec_anchor`
attribute.  Python is dynamically typed: besides `None`, `True` and `False`
the attribute could in principle hold any other object, which is exactly the
case the source's `else: raise RuntimeError("Should never happen")` branch
rejects.  `pyOther` stands for any such out-of-domain value. -/
inductive PyOptBool where
  | pyNone
  | pyTrue
  | pyFalse
  | pyOther (repr_txt : String)
deriving DecidableEq, Repr

/-- `nassl.ocsp_response.OcspResponseStatusEnum`. -/
inductive OcspResponseStatusEnum where
  | SUCCESSFUL
  | MALFORMED_REQUEST
  | INTERNAL_ERROR
  | TRY_LATER
  | SIG_REQUIRED
  | UNAUTHORIZED
deriving DecidableEq, Repr

/-- The `.name` attribute of an `OcspResponseStatusEnum` member. -/
def ocspStatusName : OcspResponseStatusEnum → String
  | .SUCCESSFUL => "SUCCESSFUL"
  | .MALFORMED_REQUEST => "MALFORMED_REQUEST"
  | .INTERNAL_ERROR => "INTERNAL_ERROR"
  | .TRY_LATER => "TRY_LATER"
  | .SIG_REQUIRED => "SIG_REQUIRED"
  | .UNAUTHORIZED => "UNAUTHORIZED"

/-- One entry of `ocsp_response["responses"]`; `serialNumber` models the
nested `["certID"]["serialNumber"]` access. -/
structure OcspSingleResp where
  certStatus : String
  serialNumber : String
  thisUpdate : String
  nextUpdate : String
deriving DecidableEq, Repr

/-- The decoded OCSP response dictionary `result.ocsp_response`, with the
keys the renderer reads. -/
structure OcspRespDict where
  responseStatus : String
  responderID : String
  responses : List OcspSingleResp
deriving DecidableEq, Repr

/-- A trust store as read by the renderer: `name`, `version` and the
truthiness of its `ev_oids` attribute (whether the store declares
recognized Extended-Validation OIDs). -/
structure TrustStore where
  name : String
  version : String
  ev_oids : Bool
deriving DecidableEq, Repr

/-- An `x509.Name`, reduced to what `_get_name_as_short_text` consumes:
the list returned by `get_common_names` and the `rfc4514_string()` form. -/
structure X509Name where
  commonNames : List String
  rfc4514 : String
deriving DecidableEq, Repr

/-- The public key of a certificate, as the tagged variant the renderer
branches on via `isinstance`; `className` below models
`public_key().__class__.__name__`. -/
inductive PublicKey where
  | rsa (key_size : Nat) (exponent : Nat)
  | ellipticCurve (curve_name : String) (curve_key_size : Nat)
  | otherKey (class_name : String)
deriving DecidableEq, Repr

/-- `public_key().__class__.__name__`. -/
def pkClassName : PublicKey → String
  | .rsa _ _ => "RSAPublicKey"
  | .ellipticCurve _ _ => "EllipticCurvePublicKey"
  | .otherKey n => n

/-- A `cryptography` certificate object, reduced to the attributes
`_get_basic_certificate_text` and `_get_name_as_short_text` read.
`dns_subject_alternative_names` carries the result of
`extract_dns_subject_alternative_names`; see `C7` for its modelling. -/
structure CryptoCert where
  subject : X509Name
  issuer : X509Name
  fingerprint_sha1_hex : String
  serial_number : Int
  not_before_iso : String
  not_after_iso : String
  sig_hash_alg_name : String
  public_key : PublicKey
  dns_subject_alternative_names : List String
deriving DecidableEq, Repr

/-- One element of `result.path_validation_results`.  The `verified_chain`
field exists on the Python object (it is used by `implementation.py` to
derive `result.verified_certificate_chain`) although the renderer itself
only reads the other three fields. -/
structure PathValidationResult where
  trust_store : TrustStore
  was_validation_successful : Bool
  openssL_verify_string : String
  verified_chain : List CryptoCert
deriving DecidableEq, Repr

/-- `CertificateInfoScanResult`, reduced to the fields
`result_to_console_output` reads.  An empty `verified_certificate_chain`
models the falsy case of `if result.verified_certificate_chain:`. -/
structure ScanResult where
  hostname_used_for_server_name_indication : String
  leaf_certificate_subject_matches_hostname : Bool
  leaf_certificate_is_ev : Bool
  path_validation_results : List PathValidationResult
  verified_chain_has_legacy_symantec_anchor : PyOptBool
  received_certificate_chain : List CryptoCert
  verified_certificate_chain : List CryptoCert
  received_chain_contains_anchor_certificate : Bool
  received_chain_has_valid_order : Bool
  verified_chain_has_sha1_signature : Bool
  leaf_certificate_has_must_staple_extension : Bool
  leaf_certificate_signed_certificate_timestamps_count : Option Nat
  ocsp_response : Option OcspRespDict
  ocsp_response_status : OcspResponseStatusEnum
  ocsp_response_is_trusted : Bool
deriving DecidableEq, Repr

/-- Python's `needle in hay` substring test, on the character lists. -/
def listIsInfixOf (needle : List Char) : List Char → Bool
  | [] => needle.isEmpty
  | c :: rest => needle.isPrefixOf (c :: rest) || listIsInfixOf needle rest

/-- Python's `needle in hay` on strings. -/
def strContainsSub (hay needle : String) : Bool :=
  listIsInfixOf needle.toList hay.toList

def NO_VERIFIED_CHAIN_ERROR_TXT : String :=
  "ERROR - Could not build verified chain (certificate untrusted?)"

/-- `TRUST_FORMAT.format(store_name=..., store_version=...)`. -/
def TRUST_FORMAT (store_name store_version : String) : String :=
  store_name ++ " CA Store (" ++ store_version ++ "):"

/-- `_get_name_as_short_text`: the first common name when there is one,
otherwise the RFC 4514 string of the whole name field. -/
def get_name_as_short_text (name_field : X509Name) : String :=
  match name_field.commonNames with
  | cn :: _ => cn
  | [] => name_field.rfc4514

/-- The per-store trust verdict text (lines 93-101 of the renderer):
`OK - Certificate is trusted`, with `, Extended Validation` appended iff
`result.leaf_certificate_is_ev and path_result.trust_store.ev_oids`, or
the `FAILED` text with the OpenSSL diagnostic. -/
def pathResultText (leaf_certificate_is_ev : Bool) (p : PathValidationResult) : String :=
  if p.was_validation_successful then
    "OK - Certificate is trusted" ++
      (if leaf_certificate_is_ev && p.trust_store.ev_oids then ", Extended Validation" else "")
  else
    "FAILED - Certificate is NOT Trusted: " ++ p.openssL_verify_string

/-- The Symantec-deprecation text (lines 112-119): `None` renders the
no-verified-chain error, `True`/`False` render the warning / OK texts, any
other value hits `raise RuntimeError("Should never happen")`. -/
def symantecText : PyOptBool → Except RenderErr String
  | .pyNone => .ok NO_VERIFIED_CHAIN_ERROR_TXT
  | .pyTrue => .ok "WARNING: Certificate distrusted by Google and Mozilla since 2018"
  | .pyFalse => .ok "OK - Not a Symantec-issued certificate"
  | .pyOther _ => .error (RenderErr.runtimeError "Should never happen")

/-- The anchor-inclusion text (lines 136-144): needs a truthy verified
chain, otherwise the no-verified-chain error. -/
def anchorText (verified_chain : List CryptoCert) (contains_anchor : Bool) : String :=
  if !verified_chain.isEmpty then
    if !contains_anchor then "OK - Anchor certificate not sent"
    else "WARNING - Received certificate chain contains the anchor certificate"
  else NO_VERIFIED_CHAIN_ERROR_TXT

/-- The received-chain-order text (lines 146-150), a function of the
precomputed order flag alone. -/
def chainOrderText (received_chain_has_valid_order : Bool) : String :=
  if received_chain_has_valid_order then "OK - Order is valid"
  else "FAILED - Certificate chain out of order!"

/-- The SHA-1-in-verified-chain text (lines 153-160): needs a truthy
verified chain, otherwise the no-verified-chain error. -/
def sha1Text (verified_chain : List CryptoCert) (has_sha1 : Bool) : String :=
  if !verified_chain.isEmpty then
    if !has_sha1 then "OK - No SHA1-signed certificate in the verified certificate chain"
    else "INSECURE - SHA1-signed certificate in the verified certificate chain"
  else NO_VERIFIED_CHAIN_ERROR_TXT

/-- The OCSP must-staple text (lines 167-171). -/
def mustStapleText (has_must_staple : Bool) : String :=
  if has_must_staple then "OK - Extension present"
  else "NOT SUPPORTED - Extension not found"

/-- The Certificate Transparency classification (lines 175-184), an
if-chain over `result.leaf_certificate_signed_certificate_timestamps_count`. -/
def sctText (scts_count : Option Nat) : String :=
  match scts_count with
  | none => "OK - Extension present"
  | some n =>
    if n = 0 then "NOT SUPPORTED - Extension not found"
    else if n < 3 then
      "WARNING - Only " ++ toString n ++ " SCTs included but Google recommends 3 or more"
    else "OK - " ++ toString n ++ " SCTs included"

/-- The OCSP stapling lines for a received response (lines 193-223): a
single error line when the status enum is not `SUCCESSFUL`; otherwise the
status / trust / responder lines, plus — only when the textual
`responseStatus` contains `"successful"` — the per-certificate detail of
`responses[0]`, an access that raises `IndexError` on an empty list. -/
def ocspLines (status : OcspResponseStatusEnum) (is_trusted : Bool) (d : OcspRespDict) :
    Except RenderErr (List OutLine) :=
  if status ≠ OcspResponseStatusEnum.SUCCESSFUL then
    .ok [OutLine.field "" ("ERROR - OCSP response status is not successful: " ++ ocspStatusName status)]
  else
    let ocsp_trust_txt :=
      if is_trusted then "OK - Response is trusted" else "FAILED - Response is NOT trusted"
    let base := [OutLine.field "OCSP Response Status:" d.responseStatus,
                 OutLine.field "Validation w/ Mozilla Store:" ocsp_trust_txt,
                 OutLine.field "Responder Id:" d.responderID]
    if strContainsSub d.responseStatus "successful" then
      match d.responses[0]? with
      | none => .error RenderErr.indexError
      | some r0 => .ok (base ++
          [OutLine.field "Cert Status:" r0.certStatus,
           OutLine.field "Cert Serial Number:" r0.serialNumber,
           OutLine.field "This Update:" r0.thisUpdate,
           OutLine.field "Next Update:" r0.nextUpdate])
    else .ok base

/-- The whole OCSP stapling section body (lines 189-224). -/
def ocspSection (r : ScanResult) : Except RenderErr (List OutLine) :=
  match r.ocsp_response with
  | none => .ok [OutLine.field "" "NOT SUPPORTED - Server did not send back an OCSP response"]
  | some d => ocspLines r.ocsp_response_status r.ocsp_response_is_trusted d

/-- Python's `str` of a list of strings, as used on the extracted DNS
subject alternative names: `[]`, or `[` + comma-separated quoted items + `]`. -/
def pyStrOfList (xs : List String) : String :=
  "[" ++ String.intercalate ", " (xs.map (fun s => "\x27" ++ s ++ "\x27")) ++ "]"

/-- The `Key Size` / `Curve` / `Exponent` lines (lines 245-254); an
unrecognized key type adds nothing. -/
def keyDetailLines : PublicKey → List OutLine
  | .ellipticCurve curve_name curve_key_size =>
      [OutLine.field "Key Size:" (toString curve_key_size),
       OutLine.field "Curve:" curve_name]
  | .rsa key_size exponent =>
      [OutLine.field "Key Size:" (toString key_size),
       OutLine.field "Exponent:" (toString exponent)]
  | .otherKey _ => []

/-- `_get_basic_certificate_text` (lines 229-266).  The leading
`received_certificate_chain[0]` raises `IndexError` on an empty chain.
`extract_dns_subject_alternative_names` is defined in
`_certificate_utils.py`, which is not among the embedded sources.
Modelled from the spec: subject-alternative-name extraction is optional —
"a certificate lacking the extension yields an explicit \x22not present\x22
marker, not an error" — so it is total and yields the (possibly empty)
name list carried by the certificate; the source's `except KeyError: pass`
guard around it is therefore never triggered. -/
def get_basic_certificate_text (r : ScanResult) : Except RenderErr (List OutLine) :=
  match r.received_certificate_chain[0]? with
  | none => .error RenderErr.indexError
  | some certificate => .ok (
      [OutLine.field "SHA1 Fingerprint:" certificate.fingerprint_sha1_hex,
       OutLine.field "Common Name:" (get_name_as_short_text certificate.subject),
       OutLine.field "Issuer:" (get_name_as_short_text certificate.issuer),
       OutLine.field "Serial Number:" (toString certificate.serial_number),
       OutLine.field "Not Before:" certificate.not_before_iso,
       OutLine.field "Not After:" certificate.not_after_iso,
       OutLine.field "Signature Algorithm:" certificate.sig_hash_alg_name,
       OutLine.field "Public Key Algorithm:" (pkClassName certificate.public_key)]
      ++ keyDetailLines certificate.public_key
      ++ [OutLine.field "DNS Subject Alternative Names:"
            (pyStrOfList certificate.dns_subject_alternative_names)])

/-- The pure assembly of all output lines, in the source's append order,
once the three fallible pieces have been computed. -/
def assembleLines (r : ScanResult) (basic : List OutLine) (symantec_str : String)
    (ocsp_resp_txt : List OutLine) : List OutLine :=
  [OutLine.title "Certificate Information"] ++ basic ++
  [OutLine.blank, OutLine.subtitle "Trust",
   OutLine.field "Hostname used for SNI:" r.hostname_used_for_server_name_indication,
   OutLine.field "Hostname Validation:"
     (if r.leaf_certificate_subject_matches_hostname then
        "OK - Certificate matches " ++ r.hostname_used_for_server_name_indication
      else
        "FAILED - Certificate does NOT match " ++ r.hostname_used_for_server_name_indication)] ++
  r.path_validation_results.map (fun p =>
    OutLine.field (TRUST_FORMAT p.trust_store.name p.trust_store.version)
      (pathResultText r.leaf_certificate_is_ev p)) ++
  [OutLine.field "Symantec 2018 Deprecation:" symantec_str,
   OutLine.field "Received Chain:"
     (String.intercalate " --> "
       (r.received_certificate_chain.map (fun c => get_name_as_short_text c.subject))),
   OutLine.field "Verified Chain:"
     (if !r.verified_certificate_chain.isEmpty then
        String.intercalate " --> "
          (r.verified_certificate_chain.map (fun c => get_name_as_short_text c.subject))
      else NO_VERIFIED_CHAIN_ERROR_TXT),
   OutLine.field "Received Chain Contains Anchor:"
     (anchorText r.verified_certificate_chain r.received_chain_contains_anchor_certificate),
   OutLine.field "Received Chain Order:" (chainOrderText r.received_chain_has_valid_order),
   OutLine.field "Verified Chain contains SHA1:"
     (sha1Text r.verified_certificate_chain r.verified_chain_has_sha1_signature),
   OutLine.blank, OutLine.subtitle "Extensions",
   OutLine.field "OCSP Must-Staple:" (mustStapleText r.leaf_certificate_has_must_staple_extension),
   OutLine.field "Certificate Transparency:"
     (sctText r.leaf_certificate_signed_certificate_timestamps_count),
   OutLine.blank, OutLine.subtitle "OCSP Stapling"] ++
  ocsp_resp_txt

/-- `result_to_console_output` (lines 70-227), with the three places where
a Python exception can escape (the `[0]` access in the basic text, the
`RuntimeError` in the Symantec branch, the `[0]` accesses in the OCSP
section) sequenced in the source's execution order. -/
def result_to_console_output (r : ScanResult) : Except RenderErr (List OutLine) :=
  match get_basic_certificate_text r with
  | .error e => .error e
  | .ok basic =>
    match symantecText r.verified_chain_has_legacy_symantec_anchor with
    | .error e => .error e
    | .ok symantec_str =>
      match ocspSection r with
      | .error e => .error e
      | .ok ocsp_resp_txt => .ok (assembleLines r basic symantec_str ocsp_resp_txt)

/-! ### The pickable certificate record (`sslyze/plugins/utils/certificate.py`) -/

/-- The `as_dict` payload, reduced to the two name dictionaries the
printable-name properties read; Python dicts preserve insertion order, so
each is an ordered association list. -/
structure CertDict where
  subject : List (String × String)
  issuer : List (String × String)
deriving DecidableEq, Repr

/-- The pickable `Certificate` record: the five constructor-stored fields. -/
structure Certificate where
  as_pem : String
  as_text : String
  as_dict : CertDict
  sha1_fingerprint : String
  hpkp_pin : String
deriving DecidableEq, Repr

/-- Python dict key access returning `None` on a missing key (`KeyError`
modelled as `none`): the first binding of the key, in insertion order. -/
def dictLookup (d : List (String × String)) (k : String) : Option String :=
  (d.find? (fun kv => kv.1 == k)).map (fun kv => kv.2)

/-- `Certificate.__eq__`: same class (always true in this embedding) and
identical `as_pem` canonical encoding. -/
def Certificate.eq (a b : Certificate) : Bool :=
  a.as_pem == b.as_pem

/-- `Certificate.__hash__`: `hash(self.as_pem)`, a function of the
canonical encoding alone. -/
def Certificate.hash (c : Certificate) : Nat :=
  c.as_pem.hash.toNat

/-- `Certificate.printable_subject_name`: the subject common name, else the
subject organizational unit name, else the give-up text. -/
def Certificate.printable_subject_name (c : Certificate) : String :=
  match dictLookup c.as_dict.subject "commonName" with
  | some cn => cn
  | none =>
    match dictLookup c.as_dict.subject "organizationalUnitName" with
    | some ou => ou
    | none => "No Common Name"

/-- `Certificate.printable_issuer_name`: the source reads
`as_dict["subject"]["commonName"]` (the subject, not the issuer) and only
on a `KeyError` falls back to joining the issuer dictionary items. -/
def Certificate.printable_issuer_name (c : Certificate) : String :=
  match dictLookup c.as_dict.subject "commonName" with
  | some cn => cn
  | none =>
    String.intercalate " - " (c.as_dict.issuer.map (fun kv => kv.1 ++ ": " ++ kv.2))

/-! ### Derivations modelled from the spec

The derivation of `verified_certificate_chain` and of
`verified_chain_has_legacy_symantec_anchor` from the per-store path
validation outcomes lives in `implementation.py`, which is not among the
embedded sources; the two definitions below model it from the spec. -/

/-- Modelled from the spec: missing `implementation.py` derivation of the
scan result's verified chain.  Per the spec, a `PathValidationOutcome`'s
"verified chain" is "non-empty iff success flag is true" and the result's
verified chain exists exactly when some store validated successfully, so
it is the chain of the first successful outcome and empty otherwise. -/
def verified_chain_from_outcomes : List PathValidationResult → List CryptoCert
  | [] => []
  | p :: rest =>
    if p.was_validation_successful then p.verified_chain
    else verified_chain_from_outcomes rest

/-- Modelled from the spec: missing `implementation.py` derivation of the
legacy-CA (Symantec) distrust flag.  Per the spec it is "`true` iff the
verified chain's anchor certificate matches a fixed, externally-supplied
set of known-bad historical root fingerprints" and `Unknown` (Python
`None`) when "no store produced a verified chain". -/
def symantec_flag_from_outcomes (bad_fingerprints : List String)
    (ps : List PathValidationResult) : PyOptBool :=
  match (verified_chain_from_outcomes ps).getLast? with
  | none => PyOptBool.pyNone
  | some anchor =>
    if bad_fingerprints.contains anchor.fingerprint_sha1_hex then PyOptBool.pyTrue
    else PyOptBool.pyFalse

/-! ### Concrete sample inputs used by witnesses and counterexamples -/

def sampleCert : CryptoCert := {
  subject := { commonNames := ["leaf"], rfc4514 := "CN=leaf" },
  issuer := { commonNames := ["inter"], rfc4514 := "CN=inter" },
  fingerprint_sha1_hex := "aa11",
  serial_number := 1,
  not_before_iso := "2020-01-01",
  not_after_iso := "2030-01-01",
  sig_hash_alg_name := "sha256",
  public_key := PublicKey.rsa 2048 65537,
  dns_subject_alternative_names := [] }

def sampleStore : TrustStore := { name := "Mozilla", version := "v1", ev_oids := true }

def sampleFailedPath : PathValidationResult := {
  trust_store := sampleStore,
  was_validation_successful := false,
  openssL_verify_string := "self signed certificate",
  verified_chain := [] }

def sampleResult : ScanResult := {
  hostname_used_for_server_name_indication := "example.com",
  leaf_certificate_subject_matches_hostname := true,
  leaf_certificate_is_ev := false,
  path_validation_results := [sampleFailedPath],
  verified_chain_has_legacy_symantec_anchor := PyOptBool.pyNone,
  received_certificate_chain := [sampleCert],
  verified_certificate_chain := [],
  received_chain_contains_anchor_certificate := false,
  received_chain_has_valid_order := true,
  verified_chain_has_sha1_signature := false,
  leaf_certificate_has_must_staple_extension := false,
  leaf_certificate_signed_certificate_timestamps_count := some 0,
  ocsp_response := none,
  ocsp_response_status := OcspResponseStatusEnum.SUCCESSFUL,
  ocsp_response_is_trusted := false }

/-- The successful lines of an `Except`-valued renderer output, `[]` on error. -/
def okLines (e : Except RenderErr (List OutLine)) : List OutLine :=
  match e with
  | .ok ls => ls
  | .error _ => []

/-! ### Helper lemmas -/

theorem output_ok_elim (r : ScanResult) (ls : List OutLine)
    (h : result_to_console_output r = Except.ok ls) :
    ∃ basic symantec_str ocsp_resp_txt,
      get_basic_certificate_text r = Except.ok basic ∧
      symantecText r.verified_chain_has_legacy_symantec_anchor = Except.ok symantec_str ∧
      ocspSection r = Except.ok ocsp_resp_txt ∧
      ls = assembleLines r basic symantec_str ocsp_resp_txt := by
  unfold result_to_console_output at h
  split at h
  · simp at h
  · rename_i basic hb
    split at h
    · simp at h
    · rename_i symantec_str hs
      split at h
      · simp at h
      · rename_i o ho
        simp only [Except.ok.injEq] at h
        exact ⟨basic, symantec_str, o, hb, hs, ho, h.symm⟩

theorem sct_line_mem_assemble (r : ScanResult) (basic : List OutLine) (s : String)
    (o : List OutLine) :
    OutLine.field "Certificate Transparency:"
      (sctText r.leaf_certificate_signed_certificate_timestamps_count) ∈
        assembleLines r basic s o := by
  simp [assembleLines]

theorem order_line_mem_assemble (r : ScanResult) (basic : List OutLine) (s : String)
    (o : List OutLine) :
    OutLine.field "Received Chain Order:" (chainOrderText r.received_chain_has_valid_order) ∈
      assembleLines r basic s o := by
  simp [assembleLines]

theorem verified_chain_nil_of_all_failed (ps : List PathValidationResult)
    (h : ∀ p ∈ ps, p.was_validation_successful = false) :
    verified_chain_from_outcomes ps = [] := by
  induction ps with
  | nil => rfl
  | cons p rest ih =>
    unfold verified_chain_from_outcomes
    rw [h p (List.mem_cons_self p rest)]
    simp only [Bool.false_eq_true, if_false]
    exact ih (fun q hq => h q (List.mem_cons_of_mem p hq))

/-! ### Claims -/

/-- C1 counterexample: the claim says the rendered classification for an
absent SCT count (Python `None`) is identical to the one for count 0;
in the source `None` renders `OK - Extension present` while `0` renders
`NOT SUPPORTED - Extension not found`, so the two lines differ. -/
theorem sct_absent_differs_from_zero :
    sctText none = "OK - Extension present" ∧
    sctText (some 0) = "NOT SUPPORTED - Extension not found" ∧
    sctText none ≠ sctText (some 0) := by
  refine ⟨rfl, rfl, ?_⟩
  decide

/-- C1 (amended): the SCT classification is a four-way threshold policy on
the count: `None` renders `OK - Extension present` (not the `not
supported` text), count 0 renders `NOT SUPPORTED - Extension not found`,
counts 1 and 2 render the below-recommended-minimum warning, counts ≥ 3
render the sufficient text; and every successful console output contains
exactly this classification line. -/
theorem sct_threshold_classification :
    sctText none = "OK - Extension present" ∧
    sctText (some 0) = "NOT SUPPORTED - Extension not found" ∧
    (∀ n, 1 ≤ n → n ≤ 2 →
      sctText (some n) =
        "WARNING - Only " ++ toString n ++ " SCTs included but Google recommends 3 or more") ∧
    (∀ n, 3 ≤ n → sctText (some n) = "OK - " ++ toString n ++ " SCTs included") ∧
    (∀ (r : ScanResult) (ls : List OutLine), result_to_console_output r = Except.ok ls →
      OutLine.field "Certificate Transparency:"
        (sctText r.leaf_certificate_signed_certificate_timestamps_count) ∈ ls) := by
  refine ⟨rfl, rfl, ?_, ?_, ?_⟩
  · intro n h1 h2
    simp only [sctText]
    rw [if_neg (by omega), if_pos (by omega)]
  · intro n h3
    simp only [sctText]
    rw [if_neg (by omega), if_neg (by omega)]
  · intro r ls hok
    obtain ⟨b, s, o, _, _, _, rfl⟩ := output_ok_elim r ls hok
    exact sct_line_mem_assemble r b s o

def sctWitnessResult : ScanResult := { sampleResult with
  leaf_certificate_signed_certificate_timestamps_count := some 1 }

/-- C1 witness: the amended classification evaluated at counts 2 and 3 and
on a concrete scan result. -/
theorem sct_threshold_classification_witness :
    sctText (some 2) =
      "WARNING - Only " ++ toString 2 ++ " SCTs included but Google recommends 3 or more" ∧
    sctText (some 3) = "OK - " ++ toString 3 ++ " SCTs included" ∧
    OutLine.field "Certificate Transparency:"
      (sctText sctWitnessResult.leaf_certificate_signed_certificate_timestamps_count) ∈
        okLines (result_to_console_output sctWitnessResult) :=
  ⟨sct_threshold_classification.2.2.1 2 (by decide) (by decide),
   sct_threshold_classification.2.2.2.1 3 (by decide),
   sct_threshold_classification.2.2.2.2 sctWitnessResult
     (okLines (result_to_console_output sctWitnessResult)) (by rfl)⟩

def ocspEmptySuccessfulDict : OcspRespDict := {
  responseStatus := "successful (0x0)",
  responderID := "KeyHash ID",
  responses := [] }

def ocspCrashResult : ScanResult := { sampleResult with
  ocsp_response := some ocspEmptySuccessfulDict,
  ocsp_response_status := OcspResponseStatusEnum.SUCCESSFUL }

/-- C2 counterexample: a scan result whose OCSP response has status
`SUCCESSFUL`, whose textual `responseStatus` contains `"successful"`, and
whose per-certificate list is empty makes the renderer dereference element
zero of the empty list: producing the output fails with an out-of-range
(`IndexError`) failure, so the substring check alone does not guard the
dereference. -/
theorem ocsp_successful_empty_list_crashes :
    result_to_console_output ocspCrashResult = Except.error RenderErr.indexError := by
  rfl

/-- C2 (amended): the element-zero dereference is guarded only by the
textual substring check: for an OCSP response with status `SUCCESSFUL`
and an empty per-certificate list, the OCSP section is produced without
any out-of-range failure provided the textual response status does not
contain `"successful"`. -/
theorem ocsp_guard_without_successful_text (st : OcspResponseStatusEnum) (tr : Bool)
    (d : OcspRespDict)
    (hst : st = OcspResponseStatusEnum.SUCCESSFUL)
    (hempty : d.responses = [])
    (hsub : strContainsSub d.responseStatus "successful" = false) :
    ∃ ls, ocspLines st tr d = Except.ok ls := by
  subst hst
  unfold ocspLines
  rw [if_neg (by simp), hsub]
  simp

def ocspEmptyMalformedDict : OcspRespDict := {
  responseStatus := "malformed request",
  responderID := "KeyHash ID",
  responses := [] }

/-- C2 witness: the amended statement evaluated on a concrete response
whose textual status does not contain `"successful"`. -/
theorem ocsp_guard_without_successful_text_witness :
    ∃ ls, ocspLines OcspResponseStatusEnum.SUCCESSFUL true ocspEmptyMalformedDict = Except.ok ls :=
  ocsp_guard_without_successful_text OcspResponseStatusEnum.SUCCESSFUL true
    ocspEmptyMalformedDict rfl rfl (by rfl)

/-- C3: when no path validation outcome is successful — so, per the
spec-modelled derivation, the scan result has no verified chain and the
legacy-Symantec flag is `None` — the Symantec-distrust check, the
anchor-inclusion check and the SHA-1-in-verified-chain check all render
the distinct no-verified-chain error text, never a pass or fail text. -/
theorem no_verified_chain_renders_unknown (r : ScanResult) (bad : List String)
    (hall : ∀ p ∈ r.path_validation_results, p.was_validation_successful = false)
    (hvc : r.verified_certificate_chain = verified_chain_from_outcomes r.path_validation_results)
    (hsym : r.verified_chain_has_legacy_symantec_anchor =
      symantec_flag_from_outcomes bad r.path_validation_results) :
    symantecText r.verified_chain_has_legacy_symantec_anchor =
      Except.ok NO_VERIFIED_CHAIN_ERROR_TXT ∧
    anchorText r.verified_certificate_chain r.received_chain_contains_anchor_certificate =
      NO_VERIFIED_CHAIN_ERROR_TXT ∧
    sha1Text r.verified_certificate_chain r.verified_chain_has_sha1_signature =
      NO_VERIFIED_CHAIN_ERROR_TXT := by
  have hnil := verified_chain_nil_of_all_failed _ hall
  rw [hvc, hsym, hnil]
  unfold symantec_flag_from_outcomes
  rw [hnil]
  exact ⟨rfl, rfl, rfl⟩

/-- C3 witness: a concrete scan result with one failed outcome, whose
result fields agree with the spec-modelled derivations. -/
theorem no_verified_chain_renders_unknown_witness :
    symantecText sampleResult.verified_chain_has_legacy_symantec_anchor =
      Except.ok NO_VERIFIED_CHAIN_ERROR_TXT ∧
    anchorText sampleResult.verified_certificate_chain
      sampleResult.received_chain_contains_anchor_certificate = NO_VERIFIED_CHAIN_ERROR_TXT ∧
    sha1Text sampleResult.verified_certificate_chain
      sampleResult.verified_chain_has_sha1_signature = NO_VERIFIED_CHAIN_ERROR_TXT :=
  no_verified_chain_renders_unknown sampleResult ["badfp"] (by decide) rfl rfl

/-- C4: for a successful path validation outcome the per-store verdict text
carries the Extended Validation annotation iff both the store's `ev_oids`
flag and the leaf's precomputed EV-eligibility flag are true; if either is
false the text is the plain trusted verdict without the annotation. -/
theorem ev_requires_both_flags (leaf_is_ev : Bool) (p : PathValidationResult)
    (hs : p.was_validation_successful = true) :
    (pathResultText leaf_is_ev p = "OK - Certificate is trusted, Extended Validation" ↔
      (leaf_is_ev = true ∧ p.trust_store.ev_oids = true)) ∧
    ((leaf_is_ev = false ∨ p.trust_store.ev_oids = false) →
      pathResultText leaf_is_ev p = "OK - Certificate is trusted") := by
  unfold pathResultText
  rw [hs]
  cases leaf_is_ev <;> cases hoids : p.trust_store.ev_oids <;> simp_all

def evStorePath : PathValidationResult := {
  trust_store := sampleStore,
  was_validation_successful := true,
  openssL_verify_string := "",
  verified_chain := [sampleCert] }

/-- C4 witness: the EV rule evaluated on a concrete successful outcome
against a store with `ev_oids` set. -/
theorem ev_requires_both_flags_witness :
    (pathResultText true evStorePath = "OK - Certificate is trusted, Extended Validation" ↔
      (true = true ∧ evStorePath.trust_store.ev_oids = true)) ∧
    ((true = false ∨ evStorePath.trust_store.ev_oids = false) →
      pathResultText true evStorePath = "OK - Certificate is trusted") :=
  ev_requires_both_flags true evStorePath rfl

/-- C5: the received-chain-order verdict is a function of the precomputed
order flag alone and is rendered for every successful output: when the
flag is true the output contains the valid-order line even if every path
validation outcome failed, independently of any verified chain. -/
theorem chain_order_independent_of_trust (r : ScanResult) (ls : List OutLine)
    (hok : result_to_console_output r = Except.ok ls)
    (horder : r.received_chain_has_valid_order = true)
    (hallfail : ∀ p ∈ r.path_validation_results, p.was_validation_successful = false) :
    chainOrderText r.received_chain_has_valid_order = "OK - Order is valid" ∧
    OutLine.field "Received Chain Order:" "OK - Order is valid" ∈ ls := by
  obtain ⟨b, s, o, _, _, _, rfl⟩ := output_ok_elim r ls hok
  constructor
  · rw [horder]; rfl
  · have hmem := order_line_mem_assemble r b s o
    rw [horder] at hmem
    exact hmem

/-- C5 witness: a concrete scan result with a valid received-chain order
and a single failed path validation outcome. -/
theorem chain_order_independent_of_trust_witness :
    chainOrderText sampleResult.received_chain_has_valid_order = "OK - Order is valid" ∧
    OutLine.field "Received Chain Order:" "OK - Order is valid" ∈
      okLines (result_to_console_output sampleResult) :=
  chain_order_independent_of_trust sampleResult
    (okLines (result_to_console_output sampleResult)) (by rfl) rfl (by decide)

/-- C6: when the OCSP response status enum is not `SUCCESSFUL`, the OCSP
section of the output is exactly the single error line carrying that
status name — no per-certificate detail field (cert status, serial
number, this-update, next-update) is exposed. -/
theorem ocsp_error_status_single_line (st : OcspResponseStatusEnum) (tr : Bool)
    (d : OcspRespDict)
    (h : st ≠ OcspResponseStatusEnum.SUCCESSFUL) :
    ocspLines st tr d = Except.ok
      [OutLine.field ""
        ("ERROR - OCSP response status is not successful: " ++ ocspStatusName st)] := by
  unfold ocspLines
  rw [if_pos h]

def ocspDetailedDict : OcspRespDict := {
  responseStatus := "successful (0x0)",
  responderID := "KeyHash ID",
  responses := [{ certStatus := "good", serialNumber := "0F", thisUpdate := "t0",
                  nextUpdate := "t1" }] }

/-- C6 witness: a `TRY_LATER` response renders only the error line even
though per-certificate data is available in the payload. -/
theorem ocsp_error_status_single_line_witness :
    ocspLines OcspResponseStatusEnum.TRY_LATER false ocspDetailedDict = Except.ok
      [OutLine.field ""
        ("ERROR - OCSP response status is not successful: " ++
          ocspStatusName OcspResponseStatusEnum.TRY_LATER)] :=
  ocsp_error_status_single_line OcspResponseStatusEnum.TRY_LATER false ocspDetailedDict
    (by decide)

/-- C7: a leaf certificate lacking the DNS subject-alternative-names
extension (an empty extracted name list, per the spec-modelled total
extraction) does not make the basic certificate text fail: the SAN field
is present and carries the explicit empty-list marker `[]`. -/
theorem san_absent_explicit_marker (r : ScanResult) (c : CryptoCert)
    (hhead : r.received_certificate_chain[0]? = some c)
    (hsan : c.dns_subject_alternative_names = []) :
    ∃ ls, get_basic_certificate_text r = Except.ok ls ∧
      OutLine.field "DNS Subject Alternative Names:" "[]" ∈ ls := by
  unfold get_basic_certificate_text
  rw [hhead]
  refine ⟨_, rfl, ?_⟩
  rw [hsan]
  have hps : pyStrOfList [] = "[]" := by rfl
  rw [hps]
  simp

/-- C7 witness: the concrete sample result, whose leaf certificate has no
DNS subject alternative names. -/
theorem san_absent_explicit_marker_witness :
    ∃ ls, get_basic_certificate_text sampleResult = Except.ok ls ∧
      OutLine.field "DNS Subject Alternative Names:" "[]" ∈ ls :=
  san_absent_explicit_marker sampleResult sampleCert rfl rfl

/-- C8: `Certificate` equality is exactly identity of the canonical PEM
encoding, equal records have equal hashes, and neither equality nor the
hash is influenced by any derived field (text form, dict form,
fingerprint, pin): two records with the same `as_pem` behave identically
under both operations. -/
theorem certificate_eq_hash_canonical_pem (a b a' b' : Certificate)
    (ha : a'.as_pem = a.as_pem) (hb : b'.as_pem = b.as_pem) :
    (Certificate.eq a b = true ↔ a.as_pem = b.as_pem) ∧
    (Certificate.eq a b = true → Certificate.hash a = Certificate.hash b) ∧
    Certificate.eq a' b' = Certificate.eq a b ∧
    Certificate.hash a' = Certificate.hash a := by
  unfold Certificate.eq Certificate.hash
  refine ⟨beq_iff_eq, ?_, by rw [ha, hb], by rw [ha]⟩
  intro h
  rw [eq_of_beq h]

def pemCertA : Certificate := {
  as_pem := "PEMDATA",
  as_text := "text form A",
  as_dict := { subject := [("commonName", "a")], issuer := [] },
  sha1_fingerprint := "f1",
  hpkp_pin := "p1" }

def pemCertB : Certificate := {
  as_pem := "PEMDATA",
  as_text := "different text form",
  as_dict := { subject := [], issuer := [("commonName", "b")] },
  sha1_fingerprint := "f2",
  hpkp_pin := "p2" }

/-- C8 witness: two concrete records sharing a PEM encoding but differing
in every derived field. -/
theorem certificate_eq_hash_canonical_pem_witness :
    (Certificate.eq pemCertA pemCertB = true ↔ pemCertA.as_pem = pemCertB.as_pem) ∧
    (Certificate.eq pemCertA pemCertB = true →
      Certificate.hash pemCertA = Certificate.hash pemCertB) ∧
    Certificate.eq pemCertB pemCertA = Certificate.eq pemCertA pemCertA ∧
    Certificate.hash pemCertB = Certificate.hash pemCertA :=
  certificate_eq_hash_canonical_pem pemCertA pemCertA pemCertB pemCertA rfl rfl

/-- C9: the Symantec-distrust field has the declared domain
true/false/None: any other value makes the renderer fail hard with the
`RuntimeError` invariant-violation instead of coercing it to a default
classification (so a whole scan result carrying such a value renders to
an error, not to output lines), while the three in-domain values map to
three pairwise distinct classifications. -/
theorem symantec_out_of_domain_fatal :
    (∀ s, symantecText (PyOptBool.pyOther s) =
      Except.error (RenderErr.runtimeError "Should never happen")) ∧
    (∀ (r : ScanResult) (s : String) (basic : List OutLine),
      r.verified_chain_has_legacy_symantec_anchor = PyOptBool.pyOther s →
      get_basic_certificate_text r = Except.ok basic →
      result_to_console_output r =
        Except.error (RenderErr.runtimeError "Should never happen")) ∧
    symantecText PyOptBool.pyNone = Except.ok NO_VERIFIED_CHAIN_ERROR_TXT ∧
    symantecText PyOptBool.pyTrue =
      Except.ok "WARNING: Certificate distrusted by Google and Mozilla since 2018" ∧
    symantecText PyOptBool.pyFalse = Except.ok "OK - Not a Symantec-issued certificate" ∧
    (NO_VERIFIED_CHAIN_ERROR_TXT ≠
      "WARNING: Certificate distrusted by Google and Mozilla since 2018" ∧
     NO_VERIFIED_CHAIN_ERROR_TXT ≠ "OK - Not a Symantec-issued certificate" ∧
     ("WARNING: Certificate distrusted by Google and Mozilla since 2018" : String) ≠
      "OK - Not a Symantec-issued certificate") := by
  refine ⟨fun s => rfl, ?_, rfl, rfl, rfl, by decide, by decide, by decide⟩
  intro r s basic hfield hbasic
  unfold result_to_console_output
  rw [hbasic, hfield]
  rfl

def outOfDomainResult : ScanResult := { sampleResult with
  verified_chain_has_legacy_symantec_anchor := PyOptBool.pyOther "object at 0x1" }

/-- C9 witness: the fatal branch evaluated at a concrete out-of-domain
value and at a concrete scan result carrying it. -/
theorem symantec_out_of_domain_fatal_witness :
    symantecText (PyOptBool.pyOther "object at 0x1") =
      Except.error (RenderErr.runtimeError "Should never happen") ∧
    result_to_console_output outOfDomainResult =
      Except.error (RenderErr.runtimeError "Should never happen") :=
  ⟨symantec_out_of_domain_fatal.1 "object at 0x1",
   symantec_out_of_domain_fatal.2.1 outOfDomainResult "object at 0x1"
     (okLines (get_basic_certificate_text outOfDomainResult)) rfl (by rfl)⟩

/-- C10: `printable_issuer_name` reads the subject dictionary: whenever the
subject has a `commonName` binding the property returns that value and the
issuer dictionary is never consulted (any record with the same subject
dictionary yields the same value); only when the subject lacks a
`commonName` key are the issuer items rendered as `key: value` pairs joined
by ` - `. -/
theorem printable_issuer_name_uses_subject_cn (c : Certificate) :
    (∀ cn, dictLookup c.as_dict.subject "commonName" = some cn →
      Certificate.printable_issuer_name c = cn) ∧
    (dictLookup c.as_dict.subject "commonName" = none →
      Certificate.printable_issuer_name c =
        String.intercalate " - " (c.as_dict.issuer.map (fun kv => kv.1 ++ ": " ++ kv.2))) ∧
    (∀ c', c'.as_dict.subject = c.as_dict.subject →
      (∃ cn, dictLookup c.as_dict.subject "commonName" = some cn) →
      Certificate.printable_issuer_name c' = Certificate.printable_issuer_name c) := by
  unfold Certificate.printable_issuer_name
  refine ⟨?_, ?_, ?_⟩
  · intro cn h
    rw [h]
  · intro h
    rw [h]
  · rintro c' hsub ⟨cn, h⟩
    rw [hsub, h]

def subjectCnCert : Certificate := {
  as_pem := "PEM2",
  as_text := "t",
  as_dict := { subject := [("commonName", "leafCN")],
               issuer := [("commonName", "issuerCN"), ("organizationName", "org")] },
  sha1_fingerprint := "f",
  hpkp_pin := "p" }

/-- C10 witness: a concrete record whose subject common name is `leafCN`
and whose issuer common name is `issuerCN`; the property returns the
subject's value. -/
theorem printable_issuer_name_uses_subject_cn_witness :
    Certificate.printable_issuer_name subjectCnCert = "leafCN" :=
  (printable_issuer_name_uses_subject_cn subjectCnCert).1 "leafCN" rfl
